import Mathlib

/-!
Verification of the question-answering notebook
`L4-Question_Answer.ipynb` (LangChain Q&A over a CSV product catalog).

The notebook is straight-line glue code over library components: a CSV
loader, an embedding client, an in-memory brute-force vector store, and a
retrieval chain that calls a hosted chat model.  The library components are
not part of the repository, so they are modelled here from the
specification; the notebook's own cells (the pipeline wiring, the `qdocs`
string join, the prompt f-string) are embedded directly.
-/

namespace L4QA

/-- A loaded document; in this notebook one document corresponds to one CSV
row, and `page_content` is the row rendered as `column: value` lines. -/
structure Document where
  page_content : String
deriving DecidableEq

/-- The contents of a CSV file: a header row and data rows. -/
structure CSVFile where
  header : List String
  rows : List (List String)

/-- Modelled from the spec: the library CSV loader holds a file path; here
the loader carries the parsed contents of that file. -/
structure CSVLoader where
  file_path : CSVFile

/-- Modelled from the spec: how the CSV loader renders one row into the
`page_content` of a document, pairing header names with field values. -/
def renderRow (header fields : List String) : String :=
  String.intercalate "\n" ((header.zip fields).map fun p => p.1 ++ ": " ++ p.2)

/-- Modelled from the spec: `CSVLoader.load` produces one document per CSV
row. -/
def CSVLoader.load (loader : CSVLoader) : List Document :=
  loader.file_path.rows.map fun r => ⟨renderRow loader.file_path.header r⟩

/-- An embedding vector, with exact rational coordinates. -/
abbrev Vec := List ℚ

/-- Modelled from the spec: the similarity score the in-memory store assigns
to a pair of embedding vectors, modelled as the inner product. -/
def dotScore (v w : Vec) : ℚ :=
  (List.zipWith (fun a b => a * b) v w).sum

/-- Modelled from the spec: the hosted embedding client, a function from
text to an embedding vector. -/
structure OpenAIEmbeddings where
  embed_query : String → Vec

/-- Modelled from the spec: the in-memory vector store holds every stored
document together with its embedding vector, plus the embedding function
used for queries.  There is no index structure beyond the plain list. -/
structure DocArrayInMemorySearch where
  entries : List (Document × Vec)
  embedding : String → Vec

/-- Modelled from the spec: building the store embeds the full
`page_content` of each document and keeps one `(document, vector)` entry
per document, in order. -/
def DocArrayInMemorySearch.from_documents (docs : List Document)
    (emb : OpenAIEmbeddings) : DocArrayInMemorySearch :=
  ⟨docs.map fun d => (d, emb.embed_query d.page_content), emb.embed_query⟩

/-- The ordering used to rank scored documents: higher score first. -/
def scoreGE (x y : Document × ℚ) : Prop := y.2 ≤ x.2

instance : DecidableRel scoreGE :=
  fun x y => inferInstanceAs (Decidable (y.2 ≤ x.2))

instance : IsTotal (Document × ℚ) scoreGE :=
  ⟨fun x y => le_total y.2 x.2⟩

instance : IsTrans (Document × ℚ) scoreGE :=
  ⟨fun _ _ _ h1 h2 => le_trans h2 h1⟩

/-- Score every stored entry against a query vector: the exhaustive
comparison pass of the brute-force search. -/
def scoreEntries (entries : List (Document × Vec)) (qvec : Vec) :
    List (Document × ℚ) :=
  entries.map fun e => (e.1, dotScore qvec e.2)

/-- Rank all scored entries by descending score and keep the first `k`
documents. -/
def topKByScore (entries : List (Document × Vec)) (qvec : Vec) (k : Nat) :
    List Document :=
  ((List.insertionSort scoreGE (scoreEntries entries qvec)).take k).map
    Prod.fst

/-- Modelled from the spec: the library default number of documents
returned by a similarity search when no `k` is given. -/
def defaultK : Nat := 4

/-- Modelled from the spec: brute-force similarity search with an explicit
result count `k`. -/
def DocArrayInMemorySearch.similarity_search_k (db : DocArrayInMemorySearch)
    (q : String) (k : Nat) : List Document :=
  topKByScore db.entries (db.embedding q) k

/-- Modelled from the spec: `similarity_search` as called in the notebook,
with no explicit `k`, so the library default applies. -/
def DocArrayInMemorySearch.similarity_search (db : DocArrayInMemorySearch)
    (q : String) : List Document :=
  db.similarity_search_k q defaultK

/-- Modelled from the spec: the hosted chat model, a function from a prompt
to a response. -/
structure ChatOpenAI where
  call_as_llm : String → String

/-- The notebook's `qdocs` cell, embedded faithfully: the Python list
comprehension joins `docs[i].page_content` for `i in range(len(docs))`
with the empty string as separator. -/
def qdocsOf (docs : List Document) : String :=
  String.join ((List.range docs.length).map fun i => (docs.getD i ⟨""⟩).page_content)

/-- The notebook's prompt f-string: the joined documents, a space, the
literal `Question: `, then the question text. -/
def mkPrompt (docs : List Document) (question : String) : String :=
  qdocsOf docs ++ " Question: " ++ question

/-- The notebook's step-by-step pipeline: load the CSV, build the store
(embedding each document), retrieve with the default `k`, join the
retrieved documents into a prompt, and call the chat model once. -/
def pipeline (loader : CSVLoader) (emb : OpenAIEmbeddings) (llm : ChatOpenAI)
    (query : String) : String :=
  let docs := loader.load
  let db := DocArrayInMemorySearch.from_documents docs emb
  let retrieved := db.similarity_search query
  let prompt := mkPrompt retrieved query
  llm.call_as_llm prompt

/-- The prompt the pipeline sends to the chat model, written out
independently of `pipeline`. -/
def pipelinePrompt (loader : CSVLoader) (emb : OpenAIEmbeddings)
    (query : String) : String :=
  mkPrompt
    ((DocArrayInMemorySearch.from_documents loader.load emb).similarity_search
      query) query

/-- The stages of the pipeline, used to trace execution order. -/
inductive Step where
  | load
  | embed
  | build
  | retrieve
  | concat
  | llm
deriving DecidableEq

/-- The list of all pipeline stages. -/
def allSteps : List Step :=
  [Step.load, Step.embed, Step.build, Step.retrieve, Step.concat, Step.llm]

/-- The step-by-step pipeline instrumented with a trace: each stage appends
its event as it runs, so the trace records which operations ran and in what
order. -/
def pipelineTraced (loader : CSVLoader) (emb : OpenAIEmbeddings)
    (llm : ChatOpenAI) (query : String) : String × List Step :=
  let s1 := (loader.load, [Step.load])
  let s2 := (s1.1.map fun d => (d, emb.embed_query d.page_content),
             s1.2 ++ [Step.embed])
  let s3 := (DocArrayInMemorySearch.mk s2.1 emb.embed_query,
             s2.2 ++ [Step.build])
  let s4 := (s3.1.similarity_search query, s3.2 ++ [Step.retrieve])
  let s5 := (mkPrompt s4.1 query, s4.2 ++ [Step.concat])
  (llm.call_as_llm s5.1, s5.2 ++ [Step.llm])

/-- Modelled from the spec: a retriever is a generic interface that takes a
query and returns documents. -/
structure Retriever where
  get_relevant_documents : String → List Document

/-- Modelled from the spec: `as_retriever` wraps the store's similarity
search (with the library default `k`) behind the retriever interface. -/
def DocArrayInMemorySearch.as_retriever (db : DocArrayInMemorySearch) :
    Retriever :=
  ⟨fun q => db.similarity_search q⟩

/-- Modelled from the spec: the stuff chain combines all retrieved documents
into a single prompt followed by the question. -/
def stuffCombine (docs : List Document) (question : String) : String :=
  String.intercalate "\n\n" (docs.map fun d => d.page_content)
    ++ "\n\nQuestion: " ++ question

/-- Modelled from the spec: a retrieval question-answering chain, holding
the chat model, the chain type and the retriever. -/
structure RetrievalQA where
  llm : ChatOpenAI
  chain_type : String
  retriever : Retriever

/-- Modelled from the spec: the constructor used in the notebook with
`chain_type="stuff"`. -/
def RetrievalQA.from_chain_type (llm : ChatOpenAI) (chain_type : String)
    (retriever : Retriever) : RetrievalQA :=
  ⟨llm, chain_type, retriever⟩

/-- Modelled from the spec: running the stuff chain retrieves documents for
the query, combines them into a prompt, and calls the chat model once. -/
def RetrievalQA.run (qa : RetrievalQA) (query : String) : String :=
  qa.llm.call_as_llm
    (stuffCombine (qa.retriever.get_relevant_documents query) query)

/-- Modelled from the spec: the convenience index creator, configured with
the vector store class and an embedding client. -/
structure VectorstoreIndexCreator where
  embedding : OpenAIEmbeddings

/-- Modelled from the spec: the wrapper returned by `from_loaders`, holding
the built vector store. -/
structure VectorStoreIndexWrapper where
  vectorstore : DocArrayInMemorySearch

/-- Modelled from the spec: `from_loaders` loads every loader, concatenates
the documents, and builds the vector store over them. -/
def VectorstoreIndexCreator.from_loaders (vic : VectorstoreIndexCreator)
    (loaders : List CSVLoader) : VectorStoreIndexWrapper :=
  ⟨DocArrayInMemorySearch.from_documents
    ((loaders.map CSVLoader.load).flatten) vic.embedding⟩

/-- Modelled from the spec: `index.query(query, llm)` builds a stuff-type
retrieval chain over the wrapped store's retriever and runs it. -/
def VectorStoreIndexWrapper.query (idx : VectorStoreIndexWrapper)
    (question : String) (llm : ChatOpenAI) : String :=
  (RetrievalQA.from_chain_type llm "stuff" idx.vectorstore.as_retriever).run
    question

/-- The notebook's step-by-step path through the retrieval chain:
`loader.load()`, `from_documents`, `as_retriever`, `from_chain_type`,
`run`. -/
def stepByStepResponse (loader : CSVLoader) (emb : OpenAIEmbeddings)
    (llm : ChatOpenAI) (query : String) : String :=
  let docs := loader.load
  let db := DocArrayInMemorySearch.from_documents docs emb
  let retriever := db.as_retriever
  let qa := RetrievalQA.from_chain_type llm "stuff" retriever
  qa.run query

/-- The notebook's one-shot convenience path:
`VectorstoreIndexCreator(...).from_loaders([loader]).query(query, llm)`. -/
def oneShotResponse (loader : CSVLoader) (emb : OpenAIEmbeddings)
    (llm : ChatOpenAI) (query : String) : String :=
  ((VectorstoreIndexCreator.mk emb).from_loaders [loader]).query query llm

/-- Modelled from the spec: the embedding client with its service call made
fallible. -/
structure OpenAIEmbeddingsE where
  embed_query : String → Except String Vec

/-- Modelled from the spec: the chat model with its service call made
fallible. -/
structure ChatOpenAIE where
  call_as_llm : String → Except String String

/-- Embed every document with a fallible embedding client, failing with the
first embedding error. -/
def embedEntriesE (emb : OpenAIEmbeddingsE) :
    List Document → Except String (List (Document × Vec))
  | [] => Except.ok []
  | d :: ds => do
      let v ← emb.embed_query d.page_content
      let rest ← embedEntriesE emb ds
      Except.ok ((d, v) :: rest)

/-- The step-by-step pipeline with fallible service calls, wired exactly as
in the notebook: no call is wrapped in a handler, every result is passed
straight to the next stage. -/
def pipelineE (loader : CSVLoader) (emb : OpenAIEmbeddingsE)
    (llm : ChatOpenAIE) (query : String) : Except String String := do
  let entries ← embedEntriesE emb loader.load
  let qvec ← emb.embed_query query
  llm.call_as_llm (mkPrompt (topKByScore entries qvec defaultK) query)

/-- Mapping `getD` over `range (length l)` recovers the list: the bridge
between the notebook's indexed comprehension and a plain map. -/
lemma map_range_getD (l : List Document) (d : Document) :
    (List.range l.length).map (fun i => l.getD i d) = l := by
  induction l with
  | nil => rfl
  | cons a t ih =>
      rw [List.length_cons, List.range_succ_eq_map, List.map_cons,
        List.map_map]
      simp only [Function.comp_def, List.getD_cons_zero, List.getD_cons_succ]
      rw [ih]

/-- The notebook's indexed comprehension for `qdocs` is the plain join of
the documents' contents. -/
lemma qdocsOf_eq_join (docs : List Document) :
    qdocsOf docs = String.join (docs.map fun d => d.page_content) := by
  unfold qdocsOf
  have h : (fun i => (docs.getD i ⟨""⟩).page_content) =
      (fun d => d.page_content) ∘ (fun i => docs.getD i (⟨""⟩ : Document)) :=
    rfl
  rw [h, ← List.map_map, map_range_getD]

/-- Any error from embedding the document list is verbatim an error of the
embedding client. -/
lemma embedEntriesE_error_origin (emb : OpenAIEmbeddingsE) :
    ∀ (docs : List Document) (e : String),
      embedEntriesE emb docs = Except.error e →
      ∃ s, emb.embed_query s = Except.error e := by
  intro docs
  induction docs with
  | nil =>
      intro e h
      simp [embedEntriesE] at h
  | cons d ds ih =>
      intro e h
      unfold embedEntriesE at h
      cases hv : emb.embed_query d.page_content with
      | error e1 =>
          rw [hv] at h
          have he : (Except.error e1 : Except String (List (Document × Vec)))
              = Except.error e := h
          injection he with he2
          subst he2
          exact ⟨d.page_content, hv⟩
      | ok v =>
          rw [hv] at h
          cases hr : embedEntriesE emb ds with
          | error e2 =>
              rw [hr] at h
              have he : (Except.error e2 :
                  Except String (List (Document × Vec))) = Except.error e := h
              injection he with he2
              subst he2
              exact ih e2 hr
          | ok rest =>
              rw [hr] at h
              have he : (Except.ok ((d, v) :: rest) :
                  Except String (List (Document × Vec))) = Except.error e := h
              cases he

/-- C1: for every CSV catalog file and query, the notebook's behaviour is
the sequential composition, in this order: load one document per CSV row,
embed each document, build the in-memory index, retrieve the most similar
documents, concatenate them into a prompt, and call the language model once
— the traced pipeline returns exactly the pipeline's answer and its trace
is exactly the six stages in this order, none skipped, repeated, or
reordered. -/
theorem c1_pipeline_is_sequential_composition (loader : CSVLoader)
    (emb : OpenAIEmbeddings) (llm : ChatOpenAI) (query : String) :
    (pipelineTraced loader emb llm query).1 = pipeline loader emb llm query ∧
    (pipelineTraced loader emb llm query).2 = allSteps := by
  exact ⟨rfl, rfl⟩

/-- C2: the vector store is an exhaustive in-memory nearest-neighbor
search: for every store and query, `similarity_search_k` scores the query
embedding against the embedding of every stored document, and the result is
the first `k` documents of a permutation of that full scored list sorted by
descending score — no approximate index structure is involved. -/
theorem c2_similarity_search_exhaustive (db : DocArrayInMemorySearch)
    (q : String) (k : Nat) :
    ∃ ranked : List (Document × ℚ),
      ranked.Perm (scoreEntries db.entries (db.embedding q)) ∧
      ranked.Sorted scoreGE ∧
      db.similarity_search_k q k = (ranked.take k).map Prod.fst := by
  refine ⟨List.insertionSort scoreGE
    (scoreEntries db.entries (db.embedding q)), ?_, ?_, rfl⟩
  · exact List.perm_insertionSort _ _
  · exact List.sorted_insertionSort _ _

/-- C3: for every loader, query, embedding function, and language model,
the step-by-step pipeline (`load`, `from_documents`, `as_retriever`,
`from_chain_type` with the stuff chain, `run`) returns the same response as
the one-shot `VectorstoreIndexCreator(...).from_loaders([loader]).query`. -/
theorem c3_step_by_step_equals_one_shot (loader : CSVLoader)
    (emb : OpenAIEmbeddings) (llm : ChatOpenAI) (query : String) :
    stepByStepResponse loader emb llm query =
      oneShotResponse loader emb llm query := by
  simp [stepByStepResponse, oneShotResponse,
    VectorstoreIndexCreator.from_loaders, VectorStoreIndexWrapper.query]

/-- C4: no custom indexing is performed: for every loaded document the
vector stored in the index is the unmodified output of the embedding
function on that document's full `page_content`, the stored documents are
the loaded documents themselves, and there is one entry per CSV row. -/
theorem c4_one_unmodified_vector_per_row (loader : CSVLoader)
    (emb : OpenAIEmbeddings) :
    ((DocArrayInMemorySearch.from_documents loader.load emb).entries).map
        Prod.snd = loader.load.map (fun d => emb.embed_query d.page_content) ∧
    ((DocArrayInMemorySearch.from_documents loader.load emb).entries).map
        Prod.fst = loader.load ∧
    ((DocArrayInMemorySearch.from_documents loader.load emb).entries).length
        = loader.file_path.rows.length := by
  refine ⟨?_, ?_, ?_⟩ <;>
    simp [DocArrayInMemorySearch.from_documents, CSVLoader.load]

/-- C5: the prompt the step-by-step path sends to the language model is the
concatenation, with the empty string as separator, of the `page_content` of
every retrieved document in the order returned by `similarity_search`,
followed by the question appended after the literal ` Question: ` marker. -/
theorem c5_prompt_is_join_then_question (db : DocArrayInMemorySearch)
    (q question : String) :
    mkPrompt (db.similarity_search q) question =
      String.join ((db.similarity_search q).map fun d => d.page_content)
        ++ " Question: " ++ question := by
  rw [mkPrompt, qdocsOf_eq_join]

/-- C6: called with no explicit `k`, `similarity_search` returns exactly 4
documents whenever the store holds at least 4 documents — the library
default top-k. -/
theorem c6_default_k_returns_four (db : DocArrayInMemorySearch) (q : String)
    (h : 4 ≤ db.entries.length) :
    (db.similarity_search q).length = 4 := by
  simp only [DocArrayInMemorySearch.similarity_search,
    DocArrayInMemorySearch.similarity_search_k, topKByScore, defaultK,
    List.length_map, List.length_take, List.length_insertionSort,
    scoreEntries]
  omega

/-- A concrete store with four entries, exercising the default-k search. -/
def dbW : DocArrayInMemorySearch :=
  ⟨[(⟨"a"⟩, [1]), (⟨"b"⟩, [2]), (⟨"c"⟩, [3]), (⟨"d"⟩, [0])], fun _ => [1]⟩

/-- Witness for C6 at the concrete four-entry store. -/
theorem c6_default_k_returns_four_witness :
    4 ≤ dbW.entries.length ∧ (dbW.similarity_search "shirt").length = 4 :=
  ⟨by decide, c6_default_k_returns_four dbW "shirt" (by decide)⟩

/-- C7: every error the pipeline surfaces is verbatim an error of an
underlying service call — no call is wrapped in a handler that catches,
transforms, retries, or suppresses the failure. -/
theorem c7_errors_propagate_unchanged (loader : CSVLoader)
    (emb : OpenAIEmbeddingsE) (llm : ChatOpenAIE) (query : String)
    (e : String) (h : pipelineE loader emb llm query = Except.error e) :
    (∃ s, emb.embed_query s = Except.error e) ∨
    (∃ p, llm.call_as_llm p = Except.error e) := by
  unfold pipelineE at h
  cases h1 : embedEntriesE emb loader.load with
  | error e1 =>
      rw [h1] at h
      have he : (Except.error e1 : Except String String) = Except.error e := h
      injection he with he2
      subst he2
      exact Or.inl (embedEntriesE_error_origin emb loader.load e1 h1)
  | ok entries =>
      rw [h1] at h
      cases h2 : emb.embed_query query with
      | error e2 =>
          rw [h2] at h
          have he : (Except.error e2 : Except String String)
              = Except.error e := h
          injection he with he2
          subst he2
          exact Or.inl ⟨query, h2⟩
      | ok qvec =>
          rw [h2] at h
          exact Or.inr ⟨mkPrompt (topKByScore entries qvec defaultK) query, h⟩

/-- A one-row catalog for the error-propagation witness. -/
def loaderW : CSVLoader := ⟨⟨["name"], [["sun shirt"]]⟩⟩

/-- An embedding client that always succeeds. -/
def embW : OpenAIEmbeddingsE := ⟨fun _ => Except.ok [1]⟩

/-- A chat model that always fails. -/
def llmW : ChatOpenAIE := ⟨fun _ => Except.error "boom"⟩

/-- Witness for C7: with a failing chat model the pipeline surfaces the
model's error, and that error is verbatim an underlying call's error. -/
theorem c7_errors_propagate_unchanged_witness :
    pipelineE loaderW embW llmW "q" = Except.error "boom" ∧
    ((∃ s, embW.embed_query s = Except.error "boom") ∨
     (∃ p, llmW.call_as_llm p = Except.error "boom")) :=
  ⟨rfl, c7_errors_propagate_unchanged loaderW embW llmW "q" "boom" rfl⟩

/-- C8: the pipeline applies no post-processing of its own — its answer is
exactly the language model's response to the pipeline prompt — and for
every input there are two model behaviours yielding different answers, so
no run's answer is guaranteed independently of the model's generation. -/
theorem c8_answer_is_exactly_llm_response :
    (∀ (loader : CSVLoader) (emb : OpenAIEmbeddings) (llm : ChatOpenAI)
        (query : String),
        pipeline loader emb llm query =
          llm.call_as_llm (pipelinePrompt loader emb query)) ∧
    (∀ (loader : CSVLoader) (emb : OpenAIEmbeddings) (query : String),
        ∃ llm1 llm2 : ChatOpenAI,
          pipeline loader emb llm1 query ≠ pipeline loader emb llm2 query) := by
  constructor
  · intro loader emb llm query
    rfl
  · intro loader emb query
    refine ⟨⟨fun _ => "0"⟩, ⟨fun _ => "1"⟩, ?_⟩
    simp [pipeline]

/-- C9: execution is one straight-line pipeline: the trace is the same
fixed stage sequence for all inputs (no data-dependent branch), and every
stage occurs exactly once (no skip, no retry). -/
theorem c9_straight_line_trace (loader1 loader2 : CSVLoader)
    (emb1 emb2 : OpenAIEmbeddings) (llm1 llm2 : ChatOpenAI)
    (q1 q2 : String) :
    (pipelineTraced loader1 emb1 llm1 q1).2 =
      (pipelineTraced loader2 emb2 llm2 q2).2 ∧
    ∀ s : Step, ((pipelineTraced loader1 emb1 llm1 q1).2).count s = 1 := by
  constructor
  · rfl
  · intro s
    cases s <;> rfl

end L4QA
